import Mathlib

/-!
Verification of the object-detection HTTP microservice
(`src/object_detection_server/app.py`).

The service is a single Flask application: a startup block that loads a
pretrained YOLO model (re-raising on failure), a health-check route
`GET /`, and a detection route `POST /detect` that reads a multipart
field `video_frame`, decodes it with the image codec, runs the model
with a fixed configuration (`conf=0.5`, `iou=0.7`, `imgsz=640`), and
serialises the model boxes as JSON.

The model and the image codec are third-party libraries, so they are
embedded as parameters (an abstract `Model` structure and a `decode`
function); exceptions they may raise are embedded as `Except` values.
Everything the handler itself does — field lookup, branching, the fixed
inference parameters, `int()` truncation of the box corners, label
lookup, response construction and logging — is translated directly from
the source.
-/

set_option autoImplicit false

namespace ObjectDetection

/-- A JSON-like value, modelling Flask `jsonify` bodies (and the plain
HTML string body of the health check). An object is an ordered list of
key/value pairs, so "exactly these keys" is expressible. -/
inductive Json where
  | str : String → Json
  | num : Rat → Json
  | int : Int → Json
  | arr : List Json → Json
  | obj : List (String × Json) → Json

/-- An HTTP response: status code and body. -/
structure Response where
  status : Nat
  body : Json

/-- A decoded image frame (`cv2.imdecode` result): height × width × 3
channels, 8-bit. The handler itself only passes the frame to the model,
so the embedding keeps the pixel dimensions that the bounds invariant
talks about. -/
structure Frame where
  width : Nat
  height : Nat
  deriving Repr, DecidableEq

/-- One raw detection box as produced by the model: real-valued corner
coordinates `xyxy`, a confidence score and a class index
(`box.xyxy[0]`, `box.conf`, `box.cls`). -/
structure Box where
  x1 : Rat
  y1 : Rat
  x2 : Rat
  y2 : Rat
  conf : Rat
  cls : Nat
  deriving Repr, DecidableEq

/-- One element of the list returned by `model(frame, ...)`; it carries
the list of boxes (`result.boxes`). -/
structure YoloResult where
  boxes : List Box
  deriving Repr, DecidableEq

/-- The loaded YOLO model: the inference call (taking the frame and the
`conf`, `iou`, `imgsz` arguments, possibly raising) and the class-name
table `model.names`. -/
structure Model where
  infer : Frame → Rat → Rat → Nat → Except String (List YoloResult)
  names : Nat → String

/-- An incoming `POST /detect` request: the multipart form files, as an
association list from field name to raw bytes (`request.files`). -/
structure Request where
  files : List (String × List Nat)

/-- Python `int()` applied to a real number: truncation toward zero. -/
def pyInt (q : Rat) : Int :=
  if 0 ≤ q then q.floor else q.ceil

/-- What the handler records besides the HTTP response: the logged
messages and the argument tuples `(conf, iou, imgsz)` of each model
invocation, in order. -/
structure HandlerOutput where
  response : Response
  log : List String
  calls : List (Rat × Rat × Nat)

/-- One serialised detection, from the loop body of `detect_objects`:
`{"label": model.names[cls], "confidence": float(conf), "bbox":
[int(x1), int(y1), int(x2), int(y2)]}`. -/
def mkDetection (model : Model) (b : Box) : Json :=
  Json.obj
    [ ("label", Json.str (model.names b.cls)),
      ("confidence", Json.num b.conf),
      ("bbox", Json.arr
        [ Json.int (pyInt b.x1), Json.int (pyInt b.y1),
          Json.int (pyInt b.x2), Json.int (pyInt b.y2) ]) ]

/-- The `POST /detect` handler, translated from `detect_objects` in
`app.py`. The whole body runs inside `try/except Exception`; exceptions
from the codec or the model are `Except.error` values and are mapped,
as in the `except` clause, to a 500 response carrying the exception
message, after logging it. -/
def detect_objects (model : Model)
    (decode : List Nat → Except String (Option Frame))
    (req : Request) : HandlerOutput :=
  match req.files.lookup "video_frame" with
  | none =>
      { response := ⟨400, Json.obj [("error", Json.str "No video frame provided")]⟩,
        log := [], calls := [] }
  | some fileBytes =>
      match decode fileBytes with
      | .error e =>
          { response := ⟨500, Json.obj [("error", Json.str e)]⟩,
            log := ["❌ Error processing frame: " ++ e], calls := [] }
      | .ok none =>
          { response := ⟨400, Json.obj [("error", Json.str "Invalid frame data")]⟩,
            log := [], calls := [] }
      | .ok (some frame) =>
          match model.infer frame (mkRat 1 2) (mkRat 7 10) 640 with
          | .error e =>
              { response := ⟨500, Json.obj [("error", Json.str e)]⟩,
                log := ["❌ Error processing frame: " ++ e],
                calls := [(mkRat 1 2, mkRat 7 10, 640)] }
          | .ok results =>
              let detections :=
                (results.flatMap (fun r => r.boxes)).map (mkDetection model)
              { response := ⟨200, Json.obj [("detections", Json.arr detections)]⟩,
                log := ["Detected " ++ toString detections.length ++ " object(s)"],
                calls := [(mkRat 1 2, mkRat 7 10, 640)] }

/-- The health-check route `GET /` (`home` in `app.py`). -/
def home : HandlerOutput :=
  { response := ⟨200,
      Json.str "<h2>✅ Object Detection Server Running</h2><p>Use POST /detect with image</p>"⟩,
    log := [], calls := [] }

/-- The module-level startup block: `model = YOLO("yolov8m.pt")` inside
`try`, logging success, or logging the failure and re-raising (so the
exception propagates out of the module and the process terminates).
The attempted load is a parameter (the `YOLO` constructor is external);
the returned `Except` is the module-level outcome: `.error` means the
exception escaped the startup block. -/
def startup (loadResult : Except String Model) :
    Except String Model × List String :=
  match loadResult with
  | .ok m => (.ok m, ["✅ YOLOv8 model loaded successfully"])
  | .error e => (.error e, ["❌ Failed to load YOLOv8 model: " ++ e])

/-- Process-wide server state after a successful startup: just the
loaded model singleton. -/
structure ServerState where
  model : Model

/-- One request/response cycle of the running server: the handler is
given read access to the state and produces the next state. Translated
from `detect_objects`, which never assigns to `model`. -/
def serverStep (decode : List Nat → Except String (Option Frame))
    (s : ServerState) (req : Request) : HandlerOutput × ServerState :=
  (detect_objects s.model decode req, s)

/-- The list of serialised detections inside a handler response, when
the body has the success shape. -/
def detectionsOf (out : HandlerOutput) : List Json :=
  match out.response.body with
  | Json.obj [("detections", Json.arr ds)] => ds
  | _ => []

/-- The spec predicate on one serialised detection, read off the spec
invariant word for word: confidence ≥ 0.5, bbox within the frame's
pixel bounds `[0, w] × [0, h]`, and strict corner ordering `x1 < x2`,
`y1 < y2`. -/
def detStrictOk (w h : Nat) (j : Json) : Bool :=
  match j with
  | Json.obj
      [ ("label", Json.str _), ("confidence", Json.num c),
        ("bbox", Json.arr
          [Json.int x1, Json.int y1, Json.int x2, Json.int y2]) ] =>
      decide (mkRat 1 2 ≤ c) && decide (0 ≤ x1) && decide (x1 < x2) && decide (x2 ≤ (w : Int))
        && decide (0 ≤ y1) && decide (y1 < y2) && decide (y2 ≤ (h : Int))
  | _ => false

/-- Like `detStrictOk` but with the corner ordering weakened to
`x1 ≤ x2`, `y1 ≤ y2`: `int()` truncation can collapse a strict
real-valued ordering onto equal integers. -/
def detOk (w h : Nat) (j : Json) : Bool :=
  match j with
  | Json.obj
      [ ("label", Json.str _), ("confidence", Json.num c),
        ("bbox", Json.arr
          [Json.int x1, Json.int y1, Json.int x2, Json.int y2]) ] =>
      decide (mkRat 1 2 ≤ c) && decide (0 ≤ x1) && decide (x1 ≤ x2) && decide (x2 ≤ (w : Int))
        && decide (0 ≤ y1) && decide (y1 ≤ y2) && decide (y2 ≤ (h : Int))
  | _ => false

/-- The contract a well-behaved model upholds for the arguments the
handler passes: every returned box has confidence at least the
requested threshold and real-valued corners inside the frame, strictly
ordered. -/
def boxWithin (frame : Frame) (c : Rat) (b : Box) : Prop :=
  c ≤ b.conf ∧ 0 ≤ b.x1 ∧ b.x1 < b.x2 ∧ b.x2 ≤ (frame.width : Rat)
    ∧ 0 ≤ b.y1 ∧ b.y1 < b.y2 ∧ b.y2 ≤ (frame.height : Rat)

/-- A concrete model box whose real corners lie strictly inside one
unit pixel: `(0.2, 0.2)`–`(0.8, 0.8)` with confidence `0.6`. -/
def cexBox : Box :=
  ⟨mkRat 1 5, mkRat 1 5, mkRat 4 5, mkRat 4 5, mkRat 3 5, 0⟩

/-- A concrete well-behaved model that always reports `cexBox`. -/
def cexModel : Model :=
  { infer := fun _ _ _ _ => .ok [⟨[cexBox]⟩],
    names := fun _ => "person" }

/-- A concrete codec that decodes anything to a 10 × 10 frame. -/
def cexDecode : List Nat → Except String (Option Frame) :=
  fun _ => .ok (some ⟨10, 10⟩)

/-- A concrete request carrying a `video_frame` field. -/
def cexReq : Request := ⟨[("video_frame", [0])]⟩

/-- The confidence threshold constant of the handler is `0.5`. -/
theorem conf_threshold_eq : mkRat 1 2 = 0.5 := by
  rw [Rat.mkRat_eq_divInt, Rat.divInt_eq_div]; norm_num

/-- The IoU threshold constant of the handler is `0.7`. -/
theorem iou_threshold_eq : mkRat 7 10 = 0.7 := by
  rw [Rat.mkRat_eq_divInt, Rat.divInt_eq_div]; norm_num

theorem pyInt_eq_floor (q : Rat) (h : 0 ≤ q) : pyInt q = ⌊q⌋ := by
  unfold pyInt
  rw [if_pos h, Rat.floor_def', ← Rat.floor_def]

theorem pyInt_nonneg (q : Rat) (h : 0 ≤ q) : 0 ≤ pyInt q := by
  rw [pyInt_eq_floor q h]
  exact_mod_cast Int.le_floor.mpr (by exact_mod_cast h)

theorem pyInt_mono (q r : Rat) (hq : 0 ≤ q) (hqr : q ≤ r) :
    pyInt q ≤ pyInt r := by
  rw [pyInt_eq_floor q hq, pyInt_eq_floor r (le_trans hq hqr)]
  exact Int.floor_le_floor hqr

theorem pyInt_le_natCast (q : Rat) (n : Nat) (hq : 0 ≤ q)
    (h : q ≤ (n : Rat)) : pyInt q ≤ (n : Int) := by
  rw [pyInt_eq_floor q hq]
  calc ⌊q⌋ ≤ ⌊(n : Rat)⌋ := Int.floor_le_floor h
    _ = (n : Int) := Int.floor_natCast n

/-- A concrete codec that rejects every byte string as not an image
(`cv2.imdecode` returning `None`). -/
def noneDecode : List Nat → Except String (Option Frame) :=
  fun _ => .ok none

/-- A concrete codec that raises an exception on every byte string. -/
def errDecode : List Nat → Except String (Option Frame) :=
  fun _ => .error "decode blew up"

/-- The keys of a JSON object, in order. -/
def keysOf : Json → List String
  | Json.obj kvs => kvs.map Prod.fst
  | _ => []

/-- The exception raised while serving a `POST /detect` request, when
one is raised: either the codec raises `e` on the submitted bytes, or
the frame decodes and the inference call raises `e`. -/
def raisesDuring (model : Model)
    (decode : List Nat → Except String (Option Frame))
    (req : Request) (e : String) : Prop :=
  ∃ bytes, req.files.lookup "video_frame" = some bytes ∧
    (decode bytes = .error e ∨
      ∃ frame, decode bytes = .ok (some frame) ∧
        model.infer frame (mkRat 1 2) (mkRat 7 10) 640 = .error e)

/-- C3: a `POST /detect` request whose multipart form data has no
`video_frame` field gets HTTP 400 with body
`{"error": "No video frame provided"}`, exactly that string, with no
model invocation (and no log line). -/
theorem detect_missing_field (model : Model)
    (decode : List Nat → Except String (Option Frame)) (req : Request)
    (h : req.files.lookup "video_frame" = none) :
    detect_objects model decode req =
      ⟨⟨400, Json.obj [("error", Json.str "No video frame provided")]⟩, [], []⟩ := by
  unfold detect_objects
  rw [h]

theorem detect_missing_field_witness :
    detect_objects cexModel cexDecode ⟨[("other_field", [1, 2])]⟩ =
      ⟨⟨400, Json.obj [("error", Json.str "No video frame provided")]⟩, [], []⟩ :=
  detect_missing_field cexModel cexDecode ⟨[("other_field", [1, 2])]⟩ rfl

/-- C4: a `POST /detect` request whose `video_frame` bytes do not
decode to an image (the codec returns no frame) gets HTTP 400 with body
`{"error": "Invalid frame data"}`, with no model invocation. -/
theorem detect_invalid_frame (model : Model)
    (decode : List Nat → Except String (Option Frame)) (req : Request)
    (bytes : List Nat)
    (h1 : req.files.lookup "video_frame" = some bytes)
    (h2 : decode bytes = .ok none) :
    detect_objects model decode req =
      ⟨⟨400, Json.obj [("error", Json.str "Invalid frame data")]⟩, [], []⟩ := by
  unfold detect_objects
  simp only [h1, h2]

theorem detect_invalid_frame_witness :
    detect_objects cexModel noneDecode cexReq =
      ⟨⟨400, Json.obj [("error", Json.str "Invalid frame data")]⟩, [], []⟩ :=
  detect_invalid_frame cexModel noneDecode cexReq [0] rfl rfl

/-- C5: on every successfully decoded frame the handler invokes the
model exactly once, with the fixed constants `conf = 0.5`, `iou = 0.7`
and `imgsz = 640`, whatever the request was. -/
theorem detect_calls_model_once (model : Model)
    (decode : List Nat → Except String (Option Frame)) (req : Request)
    (bytes : List Nat) (frame : Frame)
    (h1 : req.files.lookup "video_frame" = some bytes)
    (h2 : decode bytes = .ok (some frame)) :
    (detect_objects model decode req).calls = [(0.5, 0.7, 640)] := by
  unfold detect_objects
  simp only [h1, h2]
  cases hi : model.infer frame (mkRat 1 2) (mkRat 7 10) 640 <;>
    simp [hi, conf_threshold_eq, iou_threshold_eq]

theorem detect_calls_model_once_witness :
    (detect_objects cexModel cexDecode cexReq).calls = [(0.5, 0.7, 640)] :=
  detect_calls_model_once cexModel cexDecode cexReq [0] ⟨10, 10⟩ rfl rfl

/-- C7: the handler is a deterministic function of the submitted
`video_frame` bytes — two requests carrying the same bytes get the
same response (detections included), log and model calls. -/
theorem detect_deterministic (model : Model)
    (decode : List Nat → Except String (Option Frame))
    (req1 req2 : Request)
    (h : req1.files.lookup "video_frame" = req2.files.lookup "video_frame") :
    detect_objects model decode req1 = detect_objects model decode req2 := by
  unfold detect_objects
  rw [h]

theorem detect_deterministic_witness :
    detect_objects cexModel cexDecode cexReq =
      detect_objects cexModel cexDecode ⟨[("video_frame", [0]), ("extra", [7])]⟩ :=
  detect_deterministic cexModel cexDecode cexReq
    ⟨[("video_frame", [0]), ("extra", [7])]⟩ rfl

/-- C8: `GET /` returns HTTP 200 with the fixed static HTML string and
has no side effects: nothing is logged and the model is not called. It
is a constant, independent of any server state. -/
theorem home_static :
    home.response.status = 200 ∧
    home.response.body = Json.str
      "<h2>✅ Object Detection Server Running</h2><p>Use POST /detect with image</p>" ∧
    home.log = [] ∧ home.calls = [] :=
  ⟨rfl, rfl, rfl, rfl⟩

/-- C10: the handler is total at its boundary: for every request, every
codec behaviour and every model behaviour (exceptions included, as
`Except.error` values), `detect_objects` returns a response, its status
is 200, 400 or 500, and its body is a JSON object. -/
theorem detect_total (model : Model)
    (decode : List Nat → Except String (Option Frame)) (req : Request) :
    ((detect_objects model decode req).response.status = 200 ∨
      (detect_objects model decode req).response.status = 400 ∨
      (detect_objects model decode req).response.status = 500) ∧
    ∃ kvs, (detect_objects model decode req).response.body = Json.obj kvs := by
  unfold detect_objects
  split
  · exact ⟨Or.inr (Or.inl rfl), _, rfl⟩
  · split
    · exact ⟨Or.inr (Or.inr rfl), _, rfl⟩
    · exact ⟨Or.inr (Or.inl rfl), _, rfl⟩
    · split
      · exact ⟨Or.inr (Or.inr rfl), _, rfl⟩
      · exact ⟨Or.inl rfl, _, rfl⟩

/-- C2: if an exception is raised during decode or inference, the
handler returns HTTP 500 whose body is `{"error": <the exception's
message>}`, logs the error, and does not retry (at most one model
invocation happened). The handler returns normally — `detect_objects`
is a total function, so the exception does not escape and the process
survives the request. -/
theorem detect_exception_to_500 (model : Model)
    (decode : List Nat → Except String (Option Frame)) (req : Request)
    (e : String) (h : raisesDuring model decode req e) :
    (detect_objects model decode req).response =
      ⟨500, Json.obj [("error", Json.str e)]⟩ ∧
    ("❌ Error processing frame: " ++ e) ∈ (detect_objects model decode req).log ∧
    (detect_objects model decode req).calls.length ≤ 1 := by
  obtain ⟨bytes, h1, h2 | ⟨frame, h2, h3⟩⟩ := h
  · have key : detect_objects model decode req =
        ⟨⟨500, Json.obj [("error", Json.str e)]⟩,
          ["❌ Error processing frame: " ++ e], []⟩ := by
      unfold detect_objects
      simp only [h1, h2]
    rw [key]
    exact ⟨rfl, List.mem_singleton.mpr rfl, by simp⟩
  · have key : detect_objects model decode req =
        ⟨⟨500, Json.obj [("error", Json.str e)]⟩,
          ["❌ Error processing frame: " ++ e],
          [(mkRat 1 2, mkRat 7 10, 640)]⟩ := by
      unfold detect_objects
      simp only [h1, h2, h3]
    rw [key]
    exact ⟨rfl, List.mem_singleton.mpr rfl, by simp⟩

theorem detect_exception_to_500_witness :
    (detect_objects cexModel errDecode cexReq).response =
      ⟨500, Json.obj [("error", Json.str "decode blew up")]⟩ ∧
    ("❌ Error processing frame: " ++ "decode blew up")
      ∈ (detect_objects cexModel errDecode cexReq).log ∧
    (detect_objects cexModel errDecode cexReq).calls.length ≤ 1 :=
  detect_exception_to_500 cexModel errDecode cexReq "decode blew up"
    ⟨[0], rfl, Or.inl rfl⟩

/-- C9: if the startup model load raises, the error is logged and the
exception is re-raised out of the module (so the process terminates:
the startup outcome is still the error); if it succeeds, the success is
logged and the process-wide `model` is the loaded one. Afterwards the
server state is never changed by a request: each handler invocation
leaves the model exactly as it was. -/
theorem startup_fail_fast_and_immutable :
    (∀ e : String, (startup (.error e)).1 = .error e ∧
      ("❌ Failed to load YOLOv8 model: " ++ e) ∈ (startup (.error e)).2) ∧
    (∀ m : Model, (startup (.ok m)).1 = .ok m ∧
      "✅ YOLOv8 model loaded successfully" ∈ (startup (.ok m)).2) ∧
    (∀ (decode : List Nat → Except String (Option Frame))
      (s : ServerState) (req : Request), (serverStep decode s req).2 = s) :=
  ⟨fun _ => ⟨rfl, List.mem_singleton.mpr rfl⟩,
   fun _ => ⟨rfl, List.mem_singleton.mpr rfl⟩,
   fun _ _ _ => rfl⟩

/-- C6: on the success path the handler returns HTTP 200 with body
`{"detections": [...]}`; the detections list has exactly one element
per model box, in model output order, and each element is an object
with exactly the keys `label` (the class-name table at the box's class
index), `confidence` (the box's score) and `bbox` (the four `int()`
truncated corners `[x1, y1, x2, y2]`). -/
theorem detect_success_shape (model : Model)
    (decode : List Nat → Except String (Option Frame)) (req : Request)
    (bytes : List Nat) (frame : Frame) (results : List YoloResult)
    (h1 : req.files.lookup "video_frame" = some bytes)
    (h2 : decode bytes = .ok (some frame))
    (h3 : model.infer frame (mkRat 1 2) (mkRat 7 10) 640 = .ok results) :
    (detect_objects model decode req).response.status = 200 ∧
    (detect_objects model decode req).response.body =
      Json.obj [("detections",
        Json.arr (detectionsOf (detect_objects model decode req)))] ∧
    detectionsOf (detect_objects model decode req) =
      (results.flatMap fun r => r.boxes).map (fun b =>
        Json.obj
          [ ("label", Json.str (model.names b.cls)),
            ("confidence", Json.num b.conf),
            ("bbox", Json.arr
              [ Json.int (pyInt b.x1), Json.int (pyInt b.y1),
                Json.int (pyInt b.x2), Json.int (pyInt b.y2) ]) ]) ∧
    ∀ j ∈ detectionsOf (detect_objects model decode req),
      keysOf j = ["label", "confidence", "bbox"] := by
  have key : detect_objects model decode req =
      ⟨⟨200, Json.obj [("detections", Json.arr
          ((results.flatMap fun r => r.boxes).map (mkDetection model)))]⟩,
        ["Detected " ++
          toString ((results.flatMap fun r => r.boxes).map (mkDetection model)).length
          ++ " object(s)"],
        [(mkRat 1 2, mkRat 7 10, 640)]⟩ := by
    unfold detect_objects
    simp only [h1, h2, h3]
  rw [key]
  refine ⟨rfl, rfl, rfl, ?_⟩
  intro j hj
  simp only [detectionsOf, List.mem_map] at hj
  obtain ⟨b, _, rfl⟩ := hj
  rfl

theorem detect_success_shape_witness :
    (detect_objects cexModel cexDecode cexReq).response.status = 200 ∧
    detectionsOf (detect_objects cexModel cexDecode cexReq) =
      [Json.obj
        [ ("label", Json.str "person"),
          ("confidence", Json.num (mkRat 3 5)),
          ("bbox", Json.arr
            [Json.int 0, Json.int 0, Json.int 0, Json.int 0]) ]] ∧
    keysOf (Json.obj
        [ ("label", Json.str "person"),
          ("confidence", Json.num (mkRat 3 5)),
          ("bbox", Json.arr
            [Json.int 0, Json.int 0, Json.int 0, Json.int 0]) ]) =
      ["label", "confidence", "bbox"] :=
  have h := detect_success_shape cexModel cexDecode cexReq [0] ⟨10, 10⟩
    [⟨[cexBox]⟩] rfl rfl rfl
  ⟨h.1, h.2.2.1.trans rfl, h.2.2.2 _ (h.2.2.1 ▸ List.mem_singleton.mpr rfl)⟩

/-- C1 (amended): for every valid image, provided the model honours the
arguments the handler passes it — every returned box has confidence at
least the requested `0.5` threshold and real-valued corners inside the
frame with `x1 < x2`, `y1 < y2` — every detection in the response has
confidence ≥ 0.5, integer bbox coordinates within `[0, width]` /
`[0, height]`, and `x1 ≤ x2`, `y1 ≤ y2`. Only the non-strict ordering
survives: the handler truncates the corners with `int()` and applies no
clamping or ordering check of its own, so two strictly ordered real
corners inside the same unit pixel collapse to equal integers (see the
counterexample). -/
theorem detect_bbox_within (model : Model)
    (decode : List Nat → Except String (Option Frame)) (req : Request)
    (bytes : List Nat) (frame : Frame) (results : List YoloResult)
    (h1 : req.files.lookup "video_frame" = some bytes)
    (h2 : decode bytes = .ok (some frame))
    (h3 : model.infer frame (mkRat 1 2) (mkRat 7 10) 640 = .ok results)
    (h4 : ∀ r ∈ results, ∀ b ∈ r.boxes, boxWithin frame (mkRat 1 2) b) :
    ∀ j ∈ detectionsOf (detect_objects model decode req),
      detOk frame.width frame.height j = true := by
  intro j hj
  have key := (detect_success_shape model decode req bytes frame results
    h1 h2 h3).2.2.1
  rw [key] at hj
  simp only [List.mem_map, List.mem_flatMap] at hj
  obtain ⟨b, ⟨r, hr, hb⟩, rfl⟩ := hj
  obtain ⟨hc, hx0, hx12, hx2, hy0, hy12, hy2⟩ := h4 r hr b hb
  simp only [detOk, Bool.and_eq_true, decide_eq_true_iff]
  refine ⟨⟨⟨⟨⟨⟨hc, pyInt_nonneg _ hx0⟩, pyInt_mono _ _ hx0 (le_of_lt hx12)⟩,
    pyInt_le_natCast _ _ (le_trans hx0 (le_of_lt hx12)) hx2⟩,
    pyInt_nonneg _ hy0⟩, pyInt_mono _ _ hy0 (le_of_lt hy12)⟩,
    pyInt_le_natCast _ _ (le_trans hy0 (le_of_lt hy12)) hy2⟩

theorem detect_bbox_within_witness :
    detOk 10 10 (Json.obj
      [ ("label", Json.str "person"),
        ("confidence", Json.num (mkRat 3 5)),
        ("bbox", Json.arr
          [Json.int 0, Json.int 0, Json.int 0, Json.int 0]) ]) = true :=
  detect_bbox_within cexModel cexDecode cexReq [0] ⟨10, 10⟩ [⟨[cexBox]⟩]
    rfl rfl rfl
    (fun r hr b hb => by
      rw [List.mem_singleton.mp hr] at hb
      rw [List.mem_singleton.mp hb]
      unfold boxWithin
      decide)
    _ (List.mem_singleton.mpr rfl)

/-- C1 (counterexample to the claim as stated): a well-behaved model
box — confidence 0.6 ≥ 0.5, real corners (0.2, 0.2)–(0.8, 0.8)
strictly ordered and inside the 10 × 10 frame — is serialised with
`int()` truncated corners `[0, 0, 0, 0]`, so the returned detection
violates the claimed strict `x1 < x2`, `y1 < y2` ordering. -/
theorem detect_bbox_strict_counterexample :
    boxWithin ⟨10, 10⟩ (mkRat 1 2) cexBox ∧
    detectionsOf (detect_objects cexModel cexDecode cexReq) =
      [Json.obj
        [ ("label", Json.str "person"),
          ("confidence", Json.num (mkRat 3 5)),
          ("bbox", Json.arr
            [Json.int 0, Json.int 0, Json.int 0, Json.int 0]) ]] ∧
    ¬ ∀ j ∈ detectionsOf (detect_objects cexModel cexDecode cexReq),
        detStrictOk 10 10 j = true := by
  refine ⟨by unfold boxWithin; decide, rfl, fun hall => ?_⟩
  exact absurd (hall _ (List.mem_singleton.mpr rfl)) (by decide)

end ObjectDetection
